import Mathlib

/-!
Verification development for the MandiusLinkBot repository.

JavaScript strings are modeled by their character sequences (a Lean
`String` is a structure holding `data : List Char`, so the JS string
operations used by the source are defined here directly on `data`).
The session store (`utils/sessions.js`) is modeled as a map from user
ids to optional sessions; the dispatcher handlers of `statusBot.js`
are translated into explicit store-transforming and reply-producing
functions.
-/

/-- JS `s.startsWith(pre)`. -/
def jsStartsWith (s pre : String) : Bool :=
  pre.data.isPrefixOf s.data

/-- JS `s.substring(1)`: drop the first character. -/
def jsDrop1 (s : String) : String :=
  String.mk (s.data.drop 1)

/-- Helper for JS `s.includes(sub)`: does `sub` occur as a contiguous
sublist of `l`? -/
def containsSub (sub : List Char) : List Char → Bool
  | [] => sub.isPrefixOf []
  | c :: t => sub.isPrefixOf (c :: t) || containsSub sub t

/-- JS `s.includes(sub)`. -/
def jsIncludes (s sub : String) : Bool :=
  containsSub sub.data s.data

/-- Character class `[a-zA-Z0-9_]` of the source regexes. -/
def isWordChar (c : Char) : Bool :=
  c.isAlphanum || c == '_'

/-- JS `input.match(/^[a-zA-Z0-9_]+$/)` is non-null: at least one
character and every character alphanumeric or underscore. -/
def isPlainUsername (s : String) : Bool :=
  !s.data.isEmpty && s.data.all isWordChar

/-- Whitespace characters removed by JS `trim` (the forms appearing in
this program). -/
def isJsSpace (c : Char) : Bool :=
  c == ' ' || c == '\t' || c == '\n' || c == '\r'

/-- JS `s.trim()`. -/
def jsTrim (s : String) : String :=
  String.mk (((s.data.dropWhile isJsSpace).reverse.dropWhile isJsSpace).reverse)

/-- JS `s.toLowerCase()` (ASCII, which is all this program compares). -/
def jsToLower (s : String) : String :=
  String.mk (s.data.map Char.toLower)

/-- Identifier normalization of the `/check` handler in `statusBot.js`:
a full `https://t.me/` link is kept as is; an `@`-sigil name is
stripped and prepended with the platform URL; a bare
alphanumeric/underscore name is prepended with the platform URL; any
other shape is rejected (`none`, the handler replies with a usage
message). -/
def normalizeCheckInput (input : String) : Option String :=
  if jsStartsWith input "https://t.me/" then some input
  else if jsStartsWith input "@" then some ("https://t.me/" ++ jsDrop1 input)
  else if isPlainUsername input then some ("https://t.me/" ++ input)
  else none

/-- Identifier normalization of the `awaitingReportLink` case of the
session message handler in `statusBot.js`; the source code is the same
three-branch cascade as in the `/check` handler. -/
def normalizeReportLink (text : String) : Option String :=
  if jsStartsWith text "https://t.me/" then some text
  else if jsStartsWith text "@" then some ("https://t.me/" ++ jsDrop1 text)
  else if isPlainUsername text then some ("https://t.me/" ++ text)
  else none

theorem strDataAppend (s t : String) : (s ++ t).data = s.data ++ t.data := by
  cases s
  cases t
  rfl

theorem isPrefixOfAppend (p l : List Char) : p.isPrefixOf (p ++ l) = true := by
  induction p with
  | nil => simp [List.isPrefixOf]
  | cons a as ih => simp [List.isPrefixOf, ih]

theorem prefixHeadFalse (a b : Char) (p l : List Char) (h : (a == b) = false) :
    List.isPrefixOf (a :: p) (b :: l) = false := by
  simp [List.isPrefixOf]
  intro hab
  rw [hab] at h
  simp at h

theorem allOfPrefix (q : Char → Bool) (p : List Char) :
    ∀ l, p.isPrefixOf l = true → l.all q = true → p.all q = true := by
  induction p with
  | nil => intro l _ _; rfl
  | cons a as ih =>
    intro l hp hl
    cases l with
    | nil => simp [List.isPrefixOf] at hp
    | cons b bs =>
      rw [List.isPrefixOf_cons₂, Bool.and_eq_true] at hp
      obtain ⟨hab, htl⟩ := hp
      rw [List.all_cons, Bool.and_eq_true] at hl
      obtain ⟨hqb, hbs⟩ := hl
      rw [List.all_cons, Bool.and_eq_true]
      exact ⟨by rw [eq_of_beq hab]; exact hqb, ih bs htl hbs⟩

theorem notPrefixOfAllWord (p l : List Char)
    (hl : l.all isWordChar = true) (hp : p.all isWordChar = false) :
    p.isPrefixOf l = false := by
  cases h : p.isPrefixOf l with
  | false => rfl
  | true => rw [allOfPrefix isWordChar p l h hl] at hp; simp at hp

theorem jsStartsWithSelfAppend (p x : String) :
    jsStartsWith (p ++ x) p = true := by
  unfold jsStartsWith
  rw [strDataAppend]
  exact isPrefixOfAppend p.data x.data

theorem atSigilNotLink (x : String) :
    jsStartsWith ("@" ++ x) "https://t.me/" = false := by
  unfold jsStartsWith
  rw [strDataAppend]
  have h1 : "https://t.me/".data = 'h' :: "ttps://t.me/".data := by decide
  have h2 : ("@".data : List Char) = ['@'] := by decide
  rw [h1, h2]
  exact prefixHeadFalse 'h' '@' _ _ (by decide)

theorem jsDrop1AtSigil (x : String) : jsDrop1 ("@" ++ x) = x := by
  unfold jsDrop1
  rw [strDataAppend]
  have h2 : ("@".data : List Char) = ['@'] := by decide
  rw [h2]
  rfl

theorem plainNotLink (x : String) (hx : isPlainUsername x = true) :
    jsStartsWith x "https://t.me/" = false := by
  unfold isPlainUsername at hx
  rw [Bool.and_eq_true] at hx
  unfold jsStartsWith
  exact notPrefixOfAllWord _ _ hx.2 (by decide)

theorem plainNotSigil (x : String) (hx : isPlainUsername x = true) :
    jsStartsWith x "@" = false := by
  unfold isPlainUsername at hx
  rw [Bool.and_eq_true] at hx
  unfold jsStartsWith
  exact notPrefixOfAllWord _ _ hx.2 (by decide)

/-- Claim C1: for every valid name `x` (alphanumeric/underscore), the
three accepted input shapes — full link `https://t.me/x`, sigil form
`@x`, and bare `x` — normalize to the same canonical reference
`https://t.me/x`, and the `/check` handler and the report-session
`awaitingReportLink` step use the very same normalization. -/
theorem normalizeThreeShapesAgree (x : String) (hx : isPlainUsername x = true) :
    normalizeCheckInput ("https://t.me/" ++ x) = some ("https://t.me/" ++ x) ∧
    normalizeCheckInput ("@" ++ x) = some ("https://t.me/" ++ x) ∧
    normalizeCheckInput x = some ("https://t.me/" ++ x) ∧
    (∀ y : String, normalizeReportLink y = normalizeCheckInput y) := by
  refine ⟨?_, ?_, ?_, fun y => rfl⟩
  · unfold normalizeCheckInput
    rw [jsStartsWithSelfAppend]
    rfl
  · unfold normalizeCheckInput
    rw [atSigilNotLink]
    have hsig : jsStartsWith ("@" ++ x) "@" = true := jsStartsWithSelfAppend "@" x
    rw [hsig]
    simp only [if_true, Bool.false_eq_true, if_false]
    rw [jsDrop1AtSigil]
  · unfold normalizeCheckInput
    rw [plainNotLink x hx, plainNotSigil x hx, hx]
    simp

/-- Witness for C1 at the concrete name `foo`. -/
theorem normalizeThreeShapesAgreeWitness :
    isPlainUsername "foo" = true ∧
    (normalizeCheckInput ("https://t.me/" ++ "foo") = some ("https://t.me/" ++ "foo") ∧
     normalizeCheckInput ("@" ++ "foo") = some ("https://t.me/" ++ "foo") ∧
     normalizeCheckInput "foo" = some ("https://t.me/" ++ "foo") ∧
     (∀ y : String, normalizeReportLink y = normalizeCheckInput y)) :=
  ⟨by decide, normalizeThreeShapesAgree "foo" (by decide)⟩

/-- A session record from `utils/sessions.js`: `startSession` stores
`{ step: 'awaitingLink' }`, later merges may add `link` and `reason`
(absent fields are modeled as `none`). -/
structure Session where
  step : String
  link : Option String := none
  reason : Option String := none
  deriving DecidableEq

/-- A partial-fields patch: the `data` argument of
`updateSession(userId, data)`; a `none` field is absent from the JS
object literal. -/
structure SessionPatch where
  step : Option String := none
  link : Option String := none
  reason : Option String := none
  deriving DecidableEq

/-- JS object spread `{ ...session, ...data }`: fields present in the
patch override, all others are kept. -/
def applyPatch (s : Session) (p : SessionPatch) : Session :=
  { step := p.step.getD s.step
    link := match p.link with | some v => some v | none => s.link
    reason := match p.reason with | some v => some v | none => s.reason }

/-- The session `Map` keyed by user id. -/
def Store := Nat → Option Session

def emptyStore : Store := fun _ => none

/-- `sessions.get(userId)`. -/
def getSession (uid : Nat) (st : Store) : Option Session :=
  st uid

/-- `sessions.set(userId, s)`. -/
def setSession (uid : Nat) (s : Session) (st : Store) : Store :=
  fun u => if u = uid then some s else st u

/-- `startSession(userId)`: unconditionally replaces the entry with a
fresh `{ step: 'awaitingLink' }` session. -/
def startSession (uid : Nat) (st : Store) : Store :=
  setSession uid { step := "awaitingLink" } st

/-- `updateSession(userId, data)`: merge `data` into the stored session
if one exists, otherwise do nothing. -/
def updateSession (uid : Nat) (p : SessionPatch) (st : Store) : Store :=
  match st uid with
  | none => st
  | some s => setSession uid (applyPatch s p) st

/-- `endSession(userId)`: `sessions.delete(userId)`. -/
def endSession (uid : Nat) (st : Store) : Store :=
  fun u => if u = uid then none else st u

/-- Claim C4: `updateSession` on an owner with no session is a no-op —
the store is returned unchanged and the owner still has no session. -/
theorem updateAbsentNoOp (uid : Nat) (p : SessionPatch) (st : Store)
    (h : getSession uid st = none) :
    updateSession uid p st = st ∧ getSession uid (updateSession uid p st) = none := by
  have h1 : updateSession uid p st = st := by
    unfold updateSession
    rw [show st uid = none from h]
  exact ⟨h1, by rw [h1]; exact h⟩

/-- Witness for C4 on the empty store. -/
theorem updateAbsentNoOpWitness :
    getSession 5 emptyStore = none ∧
    (updateSession 5 { step := some "awaitingReportLink" } emptyStore = emptyStore ∧
     getSession 5 (updateSession 5 { step := some "awaitingReportLink" } emptyStore) = none) :=
  ⟨rfl, updateAbsentNoOp 5 { step := some "awaitingReportLink" } emptyStore rfl⟩

/-- Claim C10: on an existing session, `updateSession` stores exactly
the merge of the old session with the patch: patched fields take the
patch value, unpatched fields are unchanged, other owners are
untouched; in particular the handler patch that advances `step` to
`awaitingReportReason` (setting `link`) preserves `reason`, and the
patch that stores `reason` preserves both `link` and `step`. -/
theorem updateMergesFields (uid : Nat) (p : SessionPatch) (st : Store) (s : Session)
    (h : getSession uid st = some s) :
    getSession uid (updateSession uid p st) = some (applyPatch s p) ∧
    (p.step = none → (applyPatch s p).step = s.step) ∧
    (p.link = none → (applyPatch s p).link = s.link) ∧
    (p.reason = none → (applyPatch s p).reason = s.reason) ∧
    (∀ v, p.step = some v → (applyPatch s p).step = v) ∧
    (∀ v, p.link = some v → (applyPatch s p).link = some v) ∧
    (∀ v, p.reason = some v → (applyPatch s p).reason = some v) ∧
    (∀ u, u ≠ uid → getSession u (updateSession uid p st) = getSession u st) ∧
    (∀ l, (applyPatch s { step := some "awaitingReportReason", link := some l }).reason = s.reason) ∧
    (∀ r, (applyPatch s { reason := some r }).link = s.link ∧
          (applyPatch s { reason := some r }).step = s.step) := by
  have hst : st uid = some s := h
  refine ⟨?_, ?_, ?_, ?_, ?_, ?_, ?_, ?_, ?_, ?_⟩
  · unfold updateSession
    rw [hst]
    unfold getSession setSession
    simp
  · intro hp; unfold applyPatch; rw [hp]; rfl
  · intro hp; unfold applyPatch; rw [hp]
  · intro hp; unfold applyPatch; rw [hp]
  · intro v hp; unfold applyPatch; rw [hp]; rfl
  · intro v hp; unfold applyPatch; rw [hp]
  · intro v hp; unfold applyPatch; rw [hp]
  · intro u hu
    unfold updateSession
    rw [hst]
    show (setSession uid (applyPatch s p) st) u = st u
    unfold setSession
    rw [if_neg hu]
  · intro l; rfl
  · intro r; exact ⟨rfl, rfl⟩

/-- Witness for C10: update a stored `awaitingReportLink` session with
the reason patch on a concrete store. -/
theorem updateMergesFieldsWitness :
    getSession 3 (setSession 3 { step := "awaitingReportLink", link := some "https://t.me/x" } emptyStore) =
      some { step := "awaitingReportLink", link := some "https://t.me/x" } ∧
    getSession 3 (updateSession 3 { reason := some "spam" }
        (setSession 3 { step := "awaitingReportLink", link := some "https://t.me/x" } emptyStore)) =
      some (applyPatch { step := "awaitingReportLink", link := some "https://t.me/x" }
        { reason := some "spam" }) :=
  ⟨by decide,
   (updateMergesFields 3 { reason := some "spam" }
      (setSession 3 { step := "awaitingReportLink", link := some "https://t.me/x" } emptyStore)
      { step := "awaitingReportLink", link := some "https://t.me/x" } (by decide)).1⟩

/-- The probe environment of a `checkChatStatus` call: a canned HTTP
response (status and body) that an external probe would have produced,
plus an optional runtime exception (`fault`) thrown inside the `try`
block. The source function (`utils/checker.js` lines 4-14) performs no
request at all — its comment reads "For now, just simulate a response"
— so the canned response can never be consulted. -/
structure ProbeEnv where
  status : Nat
  body : String
  fault : Option String
  deriving DecidableEq

/-- The success message of `checkChatStatus`. -/
def workingMsg (link : String) : String :=
  "✅ The link [" ++ link ++ "] appears to be working."

/-- The rejection message of `checkChatStatus`. -/
def invalidFormatMsg : String :=
  "❌ Invalid link format."

/-- The `catch` message of `checkChatStatus`. -/
def checkErrorMsg (emsg : String) : String :=
  "⚠️ Error checking link: " ++ emsg

/-- Body of the `try` block of `checkChatStatus`: if the link contains
`t.me/` return the working message, otherwise the invalid-format
message; a runtime fault injected by the environment surfaces as a
thrown exception (`Except.error`). -/
def checkTryBody (link : String) (env : ProbeEnv) : Except String String :=
  match env.fault with
  | some e => Except.error e
  | none => Except.ok (if jsIncludes link "t.me/" then workingMsg link else invalidFormatMsg)

/-- `checkChatStatus(link)` from `utils/checker.js`: the whole body is
wrapped in `try`/`catch`, the catch arm converting any exception into
the warning message string. -/
def checkChatStatus (link : String) (env : ProbeEnv) : Except String String :=
  match checkTryBody link env with
  | Except.ok s => Except.ok s
  | Except.error e => Except.ok (checkErrorMsg e)

/-- Is the call result an ordinary return (no propagated exception)? -/
def returnsNormally (r : Except String String) : Bool :=
  match r with
  | Except.ok _ => true
  | Except.error _ => false

/-- Claim C2 counterexample: `checkChatStatus` does not classify the
canned probe response. On the full link `https://t.me/x` it returns
the working-link (Live-style) message for an HTTP 404 canned response
— not a NotFound outcome — and the 404 response, the 200 response
with the `contact` marker and the 200 response with the
"can\x27t be displayed" marker are all indistinguishable. -/
theorem cannedResponsesIndistinguishable :
    checkChatStatus "https://t.me/x" { status := 404, body := "", fault := none } =
      Except.ok (workingMsg "https://t.me/x") ∧
    checkChatStatus "https://t.me/x" { status := 404, body := "", fault := none } =
      checkChatStatus "https://t.me/x" { status := 200, body := "contact", fault := none } ∧
    checkChatStatus "https://t.me/x" { status := 404, body := "", fault := none } =
      checkChatStatus "https://t.me/x"
        { status := 200, body := "can\x27t be displayed", fault := none } :=
  ⟨rfl, rfl, rfl⟩

theorem containsNil (l : List Char) : containsSub [] l = true := by
  cases l with
  | nil => rfl
  | cons c t => simp [containsSub, List.isPrefixOf]

theorem containsOfPrefixed (sub l : List Char) (h : sub.isPrefixOf l = true) :
    containsSub sub l = true := by
  cases l with
  | nil => simpa [containsSub] using h
  | cons c t => simp [containsSub, h]

theorem prefixAppendRight (p : List Char) :
    ∀ l r, p.isPrefixOf l = true → p.isPrefixOf (l ++ r) = true := by
  induction p with
  | nil => intro l r _; simp
  | cons a as ih =>
    intro l r h
    cases l with
    | nil => simp [List.isPrefixOf] at h
    | cons b bs =>
      rw [List.isPrefixOf_cons₂, Bool.and_eq_true] at h
      rw [List.cons_append, List.isPrefixOf_cons₂, Bool.and_eq_true]
      exact ⟨h.1, ih bs r h.2⟩

theorem containsSubAppendLeft (sub : List Char) :
    ∀ p l, containsSub sub p = true → containsSub sub (p ++ l) = true := by
  intro p
  induction p with
  | nil =>
    intro l h
    simp only [containsSub] at h
    cases sub with
    | nil => simpa using containsNil l
    | cons a as => simp [List.isPrefixOf] at h
  | cons c t ih =>
    intro l h
    simp only [containsSub, Bool.or_eq_true] at h
    rw [List.cons_append]
    simp only [containsSub, Bool.or_eq_true]
    cases h with
    | inl h1 => exact Or.inl (prefixAppendRight sub _ l h1)
    | inr h2 => exact Or.inr (ih l h2)

theorem prefixDecompose (p : List Char) :
    ∀ l, p.isPrefixOf l = true → ∃ r, l = p ++ r := by
  induction p with
  | nil => intro l _; exact ⟨l, rfl⟩
  | cons a as ih =>
    intro l h
    cases l with
    | nil => simp [List.isPrefixOf] at h
    | cons b bs =>
      rw [List.isPrefixOf_cons₂, Bool.and_eq_true] at h
      obtain ⟨r, hr⟩ := ih bs h.2
      exact ⟨r, by rw [List.cons_append, ← hr, eq_of_beq h.1]⟩

theorem includesTmeOfLinkShape (s : String)
    (h : jsStartsWith s "https://t.me/" = true) :
    jsIncludes s "t.me/" = true := by
  unfold jsStartsWith at h
  obtain ⟨r, hr⟩ := prefixDecompose "https://t.me/".data s.data h
  unfold jsIncludes
  rw [hr]
  exact containsSubAppendLeft "t.me/".data "https://t.me/".data r (by decide)

theorem includesTmeAppend (x : String) :
    jsIncludes ("https://t.me/" ++ x) "t.me/" = true := by
  unfold jsIncludes
  rw [strDataAppend]
  exact containsSubAppendLeft "t.me/".data "https://t.me/".data x.data (by decide)

theorem normalizedIncludesTme (input target : String)
    (h : normalizeCheckInput input = some target) :
    jsIncludes target "t.me/" = true := by
  unfold normalizeCheckInput at h
  by_cases h1 : jsStartsWith input "https://t.me/" = true
  · rw [if_pos h1] at h
    obtain rfl : input = target := Option.some.inj h
    exact includesTmeOfLinkShape input h1
  · rw [if_neg h1] at h
    by_cases h2 : jsStartsWith input "@" = true
    · rw [if_pos h2] at h
      obtain rfl : ("https://t.me/" ++ jsDrop1 input) = target := Option.some.inj h
      exact includesTmeAppend (jsDrop1 input)
    · rw [if_neg h2] at h
      by_cases h3 : isPlainUsername input = true
      · rw [if_pos h3] at h
        obtain rfl : ("https://t.me/" ++ input) = target := Option.some.inj h
        exact includesTmeAppend input
      · rw [if_neg h3] at h
        exact absurd h (by simp)

/-- Claim C2 amended: the classifier ignores the canned probe response
entirely. Every target accepted by the `/check` normalization contains
`t.me/`, so for every canned response it yields the working-link
message; two canned responses are never distinguished; only a thrown
exception changes the outcome, to the warning message. -/
theorem checkClassifiesByShapeOnly (input target : String)
    (s1 s2 : Nat) (b1 b2 : String)
    (h : normalizeCheckInput input = some target) :
    checkChatStatus target { status := s1, body := b1, fault := none } =
      Except.ok (workingMsg target) ∧
    checkChatStatus target { status := s1, body := b1, fault := none } =
      checkChatStatus target { status := s2, body := b2, fault := none } ∧
    (∀ e, checkChatStatus target { status := s1, body := b1, fault := some e } =
      Except.ok (checkErrorMsg e)) := by
  have hinc : jsIncludes target "t.me/" = true := normalizedIncludesTme input target h
  refine ⟨?_, ?_, fun e => rfl⟩
  · unfold checkChatStatus checkTryBody
    simp [hinc]
  · unfold checkChatStatus checkTryBody
    simp [hinc]

/-- Witness for the amended C2 at the sigil input `@x` with a canned
404 response and a canned 200 `contact` response. -/
theorem checkClassifiesByShapeOnlyWitness :
    normalizeCheckInput "@x" = some "https://t.me/x" ∧
    (checkChatStatus "https://t.me/x" { status := 404, body := "", fault := none } =
       Except.ok (workingMsg "https://t.me/x") ∧
     checkChatStatus "https://t.me/x" { status := 404, body := "", fault := none } =
       checkChatStatus "https://t.me/x" { status := 200, body := "contact", fault := none } ∧
     (∀ e, checkChatStatus "https://t.me/x" { status := 404, body := "", fault := some e } =
       Except.ok (checkErrorMsg e))) :=
  ⟨by decide, checkClassifiesByShapeOnly "@x" "https://t.me/x" 404 200 "" "contact" (by decide)⟩

/-- Claim C6: for every input and every exception thrown inside the
probe body, `checkChatStatus` returns normally — the exception is
caught by the local `catch` and converted into the warning
(TransientError-style) message; no raw fault ever propagates to the
caller. -/
theorem checkNeverPropagates (link : String) (env : ProbeEnv) :
    returnsNormally (checkChatStatus link env) = true ∧
    (∀ e, env.fault = some e →
      checkChatStatus link env = Except.ok (checkErrorMsg e)) := by
  cases env with
  | mk s b f =>
    cases f with
    | none => exact ⟨rfl, fun e he => absurd he (by simp)⟩
    | some e0 =>
      refine ⟨rfl, fun e he => ?_⟩
      have h0 : e0 = e := Option.some.inj he
      subst h0
      rfl

/-- Witness for C6 with a connection-refused style fault. -/
theorem checkNeverPropagatesWitness :
    returnsNormally (checkChatStatus "x"
      { status := 0, body := "", fault := some "ECONNREFUSED" }) = true ∧
    checkChatStatus "x" { status := 0, body := "", fault := some "ECONNREFUSED" } =
      Except.ok (checkErrorMsg "ECONNREFUSED") :=
  ⟨(checkNeverPropagates "x" { status := 0, body := "", fault := some "ECONNREFUSED" }).1,
   (checkNeverPropagates "x" { status := 0, body := "", fault := some "ECONNREFUSED" }).2
     "ECONNREFUSED" rfl⟩

/-- The value handed to `generateReport` by `statusBot.js`
(`reportDetails`), matching the spec Report `{ targetChat, targetLink,
reason, reporterLabel }`: `chatId` is the target chat, `link` the
target link, `reason` the complaint, `reporterName` the reporter
label. -/
structure ReportDetails where
  chatId : String
  link : String
  reason : String
  reporterName : String
  deriving DecidableEq

/-- `generateReport(session)` from `utils/reporter.js`: a template
literal interpolating `chatId`, `link` and `reason` (the
`reporterName` member of its argument is not used). -/
def generateReport (r : ReportDetails) : String :=
  "📩 Report Sent! Details:\n- Chat ID: " ++ r.chatId ++
    "\n- Link: " ++ r.link ++ "\n- Reason: " ++ r.reason

/-- Claim C5 counterexample: two distinct reports that differ only in
the reporter label produce byte-identical output, so `generateReport`
does not render all four Report fields. -/
theorem reporterLabelNotRendered :
    generateReport
        { chatId := "c1", link := "https://t.me/x", reason := "spam", reporterName := "Alice" } =
      generateReport
        { chatId := "c1", link := "https://t.me/x", reason := "spam", reporterName := "Bob" } ∧
    ({ chatId := "c1", link := "https://t.me/x", reason := "spam", reporterName := "Alice" } :
        ReportDetails) ≠
      { chatId := "c1", link := "https://t.me/x", reason := "spam", reporterName := "Bob" } :=
  ⟨rfl, by decide⟩

/-- Claim C5 amended: `generateReport` deterministically renders three
of the four Report fields — target chat, target link and reason —
into the fixed template, with no I/O and no failure mode (it is a
total pure function); the reporter label is accepted but ignored. -/
theorem generateReportRendersThreeFields (r1 r2 : ReportDetails)
    (hc : r1.chatId = r2.chatId) (hl : r1.link = r2.link) (hr : r1.reason = r2.reason) :
    generateReport r1 = generateReport r2 ∧
    generateReport r1 =
      "📩 Report Sent! Details:\n- Chat ID: " ++ r1.chatId ++
        "\n- Link: " ++ r1.link ++ "\n- Reason: " ++ r1.reason := by
  unfold generateReport
  rw [hc, hl, hr]
  exact ⟨rfl, rfl⟩

/-- Witness for the amended C5: concrete reports differing only in the
reporter label render identically through the template. -/
theorem generateReportRendersThreeFieldsWitness :
    generateReport
        { chatId := "-100", link := "https://t.me/y", reason := "scam", reporterName := "A" } =
      generateReport
        { chatId := "-100", link := "https://t.me/y", reason := "scam", reporterName := "B" } ∧
    generateReport
        { chatId := "-100", link := "https://t.me/y", reason := "scam", reporterName := "A" } =
      "📩 Report Sent! Details:\n- Chat ID: " ++ "-100" ++
        "\n- Link: " ++ "https://t.me/y" ++ "\n- Reason: " ++ "scam" :=
  generateReportRendersThreeFields
    { chatId := "-100", link := "https://t.me/y", reason := "scam", reporterName := "A" }
    { chatId := "-100", link := "https://t.me/y", reason := "scam", reporterName := "B" }
    rfl rfl rfl

/-- Claim C9: `generateReport` is deterministic and referentially
transparent — two calls on an identical Report value yield
byte-identical output (the embedding is a pure function of its
argument; the source touches no clock, randomness or I/O). -/
theorem generateReportDeterministic (r1 r2 : ReportDetails) (h : r1 = r2) :
    generateReport r1 = generateReport r2 := by
  rw [h]

/-- Witness for C9 at a concrete Report value. -/
theorem generateReportDeterministicWitness :
    generateReport
        { chatId := "c", link := "https://t.me/z", reason := "ads", reporterName := "N" } =
      generateReport
        { chatId := "c", link := "https://t.me/z", reason := "ads", reporterName := "N" } :=
  generateReportDeterministic
    { chatId := "c", link := "https://t.me/z", reason := "ads", reporterName := "N" }
    { chatId := "c", link := "https://t.me/z", reason := "ads", reporterName := "N" } rfl

/-- External configuration seen by the handlers:
`TELEGRAM_CHANNEL_CHAT_ID` (the default report channel, possibly
unset) and whether delivery to the channel succeeds (a failed
`bot.sendMessage` throws into the handler's `catch`). -/
structure BotConfig where
  defaultChannel : Option String
  sendOk : Bool
  deriving DecidableEq

/-- One outbound reply to the sender's chat, tagged by the
`bot.sendMessage` site in `statusBot.js` that produces it. -/
inductive Reply where
  | greeting
  | gotIt (target : String)
  | invalidLinkPrompt
  | provideReasonPrompt
  | noDefaultChannel
  | reportDelivered (target : String)
  | reportDeliveryFailed (target : String)
  | unknownStepPrompt
  | fallbackAck
  | welcome
  | checkUsage
  | checkResult (s : String)
  | checkFailed
  | reportPrompt
  | noTargetConfigured
  | provideMessage
  | oneShotDelivered (target : String)
  | oneShotFailed (target : String)
  | cancelled
  | noActiveSession
  | add3Initializing
  | add3NoFirestore
  | add3Usage
  | add3Processing (n : Nat)
  | add3Added (u : String)
  | add3NotAdded (u : String)
  | add3Invalid (u : String)
  | add3Finished
  deriving DecidableEq

/-- The greeting words recognized by the greetings listener. -/
def greetingWords : List String :=
  ["hi", "hello", "hey", "hii", "helo", "hola"]

/-- Replies of the first `bot.on('message')` listener (greetings): it
lowercases the text, ignores empty text, and replies with a hello
message when the text is a greeting word. It never touches the session
store. -/
def greetingsHandlerReplies (text : String) : List Reply :=
  let lower := jsToLower text
  if lower = "" then []
  else if greetingWords.contains lower then [Reply.greeting] else []

/-- Store effect of the second `bot.on('message')` listener (the
session-continuation handler). Commands (leading `/`) and empty texts
are ignored; with no session nothing is stored; in the
`awaitingReportLink` step a valid identifier advances the session and
an invalid one leaves the store untouched; in the
`awaitingReportReason` step a non-blank text stores the reason and the
session is then ended on every path (the unconfigured-target branch
ends it explicitly, the delivery path ends it in `finally`); an
unknown step only replies. -/
def sessionHandlerStore (_cfg : BotConfig) (st : Store) (uid : Nat) (text : String) : Store :=
  if text = "" || jsStartsWith text "/" then st
  else
    match getSession uid st with
    | none => st
    | some s =>
      if s.step = "awaitingReportLink" then
        match normalizeReportLink text with
        | none => st
        | some target =>
          updateSession uid { step := some "awaitingReportReason", link := some target } st
      else if s.step = "awaitingReportReason" then
        if jsTrim text = "" then st
        else endSession uid (updateSession uid { reason := some (jsTrim text) } st)
      else st

/-- Replies of the session-continuation listener, mirroring
`sessionHandlerStore` branch for branch (the fallback branch skips
greeting words to avoid a double greeting). -/
def sessionHandlerReplies (cfg : BotConfig) (st : Store) (uid : Nat) (text : String) :
    List Reply :=
  if text = "" || jsStartsWith text "/" then []
  else
    match getSession uid st with
    | none =>
      if greetingWords.contains (jsToLower text) then [] else [Reply.fallbackAck]
    | some s =>
      if s.step = "awaitingReportLink" then
        match normalizeReportLink text with
        | none => [Reply.invalidLinkPrompt]
        | some target => [Reply.gotIt target]
      else if s.step = "awaitingReportReason" then
        if jsTrim text = "" then [Reply.provideReasonPrompt]
        else
          match cfg.defaultChannel with
          | none => [Reply.noDefaultChannel]
          | some ch =>
            if cfg.sendOk then [Reply.reportDelivered ch]
            else [Reply.reportDeliveryFailed ch]
      else [Reply.unknownStepPrompt]

/-- Remainder of `l` after the first (leftmost) occurrence of `sub`,
or `none` if `sub` does not occur. -/
def restAfterSub (sub : List Char) : List Char → Option (List Char)
  | [] => if sub.isEmpty then some [] else none
  | c :: t =>
    if sub.isPrefixOf (c :: t) then some ((c :: t).drop sub.length)
    else restAfterSub sub t

/-- A character matched by `.` in a JS regex (anything but a line
terminator). -/
def nonNewline (c : Char) : Bool :=
  c != '\n' && c != '\r'

/-- Raw `match[1]` of the unanchored regex `/\/report(?: (.+))?/`:
after the leftmost `/report`, an optional group of a space followed by
a non-empty run of non-newline characters. -/
def reportArg (text : String) : Option String :=
  match restAfterSub "/report".data text.data with
  | none => none
  | some rest =>
    match rest with
    | ' ' :: tail =>
      let cand := tail.takeWhile nonNewline
      if cand.isEmpty then none else some (String.mk cand)
    | _ => none

/-- `fullText` of the `/report` handler when truthy: the source
computes `match[1]?.trim()` and tests its truthiness, so an absent
group or a payload trimming to the empty string both take the bare
path. -/
def reportPayload (text : String) : Option String :=
  match reportArg text with
  | none => none
  | some a =>
    let t := jsTrim a
    if t = "" then none else some t

/-- Store effect of the `/report` command handler: with a truthy
inline payload it sends a one-shot report and never touches the
session store; bare (no payload, or a payload trimming to empty), it
calls `startSession` (installing a fresh `awaitingLink` session,
overwriting any prior one) and immediately advances it to
`awaitingReportLink`. -/
def reportHandlerStore (st : Store) (uid : Nat) (text : String) : Store :=
  if jsIncludes text "/report" then
    match reportPayload text with
    | some _ => st
    | none => updateSession uid { step := some "awaitingReportLink" } (startSession uid st)
  else st

/-- Store effect of the `/cancel` command handler: ends the session if
one exists. -/
def cancelHandlerStore (st : Store) (uid : Nat) (text : String) : Store :=
  if jsIncludes text "/cancel" then
    match getSession uid st with
    | some _ => endSession uid st
    | none => st
  else st

/-- Net session-store effect of one inbound text from `uid`:
`processUpdate` first emits `message` (running the two message
listeners; only the session listener writes the store) and then runs
the `onText` regex callbacks in registration order (`/start`, `/check`
and `/add3` never touch the session store; `/report` and `/cancel`
do). -/
def processStore (cfg : BotConfig) (st : Store) (uid : Nat) (text : String) : Store :=
  cancelHandlerStore (reportHandlerStore (sessionHandlerStore cfg st uid text) uid text) uid text

/-- Iterated dispatch of a sequence of inbound texts from one user. -/
def runInputs (cfg : BotConfig) (uid : Nat) (st : Store) (inputs : List String) : Store :=
  inputs.foldl (fun acc t => processStore cfg acc uid t) st

/-- JS `/^-?\d+$/`: an optional minus sign followed by at least one
digit (the chat-id shape accepted by the one-shot report target). -/
def isIntLit (s : String) : Bool :=
  match s.data with
  | '-' :: t => !t.isEmpty && t.all Char.isDigit
  | l => !l.isEmpty && l.all Char.isDigit

/-- JS `/^@[a-zA-Z0-9_]+$/`: the username shape accepted by `/add3`. -/
def isAtUsername (s : String) : Bool :=
  match s.data with
  | '@' :: t => !t.isEmpty && t.all isWordChar
  | _ => false

/-- JS `s.split(' ')` on character lists: split at every single space,
preserving empty chunks. -/
def splitOnSpaceAux (acc : List Char) : List Char → List (List Char)
  | [] => [acc.reverse]
  | c :: t =>
    if c = ' ' then acc.reverse :: splitOnSpaceAux [] t
    else splitOnSpaceAux (c :: acc) t

/-- JS `s.split(' ')`. -/
def splitOnSpaceStr (s : String) : List String :=
  (splitOnSpaceAux [] s.data).map String.mk

/-- JS `parts.join(' ')`. -/
def joinSpaceStr (parts : List String) : String :=
  String.mk (List.intercalate [' '] (parts.map String.data))

/-- JS `s.split(/\s+/).filter(u => u.length > 0)`: the maximal
non-whitespace chunks of the input (ASCII whitespace, as in
`jsTrim`). -/
def wordsAux (acc : List Char) : List Char → List (List Char)
  | [] => if acc.isEmpty then [] else [acc.reverse]
  | c :: t =>
    if isJsSpace c then
      (if acc.isEmpty then wordsAux [] t else acc.reverse :: wordsAux [] t)
    else wordsAux (c :: acc) t

/-- Matching of an unanchored regex `pat(.+)` where `pat` ends in a
space (the `/check (.+)` and `/add3 (.+)` patterns): the engine scans
left to right for a position where `pat` matches and is followed by at
least one non-newline character, and captures the greedy non-newline
run there; if the argument part fails at one position the scan
continues at the next. -/
def cmdArgScan (pat : List Char) : List Char → Option (List Char)
  | [] => none
  | c :: t =>
    if pat.isPrefixOf (c :: t) then
      let cand := ((c :: t).drop pat.length).takeWhile nonNewline
      if cand.isEmpty then cmdArgScan pat t else some cand
    else cmdArgScan pat t

/-- Replies of the `/start` handler: the welcome text, whenever the
unanchored `/\/start/` pattern occurs in the text. -/
def startHandlerReplies (text : String) : List Reply :=
  if jsIncludes text "/start" then [Reply.welcome] else []

/-- Replies of the `/check` handler: on a match, `match[1]` is
trimmed, normalized (usage reply when rejected) and probed; the
`catch` around the probe sends a fixed error reply. -/
def checkHandlerReplies (env : ProbeEnv) (text : String) : List Reply :=
  match cmdArgScan "/check ".data text.data with
  | none => []
  | some cand =>
    let input := jsTrim (String.mk cand)
    match normalizeCheckInput input with
    | none => [Reply.checkUsage]
    | some target =>
      match checkChatStatus target env with
      | Except.ok s => [Reply.checkResult s]
      | Except.error _ => [Reply.checkFailed]

/-- Common tail of the one-shot report path: empty trimmed content is
re-prompted, otherwise the report is sent to the target and the sender
gets the success or the failure reply. -/
def reportDeliverReplies (cfg : BotConfig) (target content : String) : List Reply :=
  if jsTrim content = "" then [Reply.provideMessage]
  else if cfg.sendOk then [Reply.oneShotDelivered target]
  else [Reply.oneShotFailed target]

/-- Replies of the `/report` handler: bare, it prompts for the link;
with a truthy payload, the first space-separated part is used as the
target when it looks like `@name` or a numeric id and more parts
follow, otherwise the default channel is used (error reply when
unset). -/
def reportHandlerReplies (cfg : BotConfig) (text : String) : List Reply :=
  if jsIncludes text "/report" then
    match reportPayload text with
    | none => [Reply.reportPrompt]
    | some fullText =>
      let parts := splitOnSpaceStr fullText
      let hd := parts.headD ""
      if parts.length > 1 && (jsStartsWith hd "@" || isIntLit hd) then
        reportDeliverReplies cfg hd (joinSpaceStr parts.tail)
      else
        match cfg.defaultChannel with
        | none => [Reply.noTargetConfigured]
        | some ch => reportDeliverReplies cfg ch fullText
  else []

/-- Replies of the `/cancel` handler. -/
def cancelHandlerReplies (st : Store) (uid : Nat) (text : String) : List Reply :=
  if jsIncludes text "/cancel" then
    match getSession uid st with
    | some _ => [Reply.cancelled]
    | none => [Reply.noActiveSession]
  else []

/-- Per-username replies of the `/add3` loop: the name is prefixed
with `@` when needed, rejected when it does not match
`/^@[a-zA-Z0-9_]+$/`, else added to the monitoring list with the
Firestore outcome reported (`addOk` models that external outcome). -/
def add3UserReply (addOk : String → Bool) (u : String) : List Reply :=
  let normalized := if jsStartsWith u "@" then u else "@" ++ u
  if isAtUsername normalized then
    (if addOk normalized then [Reply.add3Added normalized]
     else [Reply.add3NotAdded normalized])
  else [Reply.add3Invalid u]

/-- Replies of the `/add3` handler: `fb` models
`firebaseAuthReady && currentUserId`, `fs` models a truthy `db`; then
the trimmed argument is split into usernames and each is processed,
bracketed by the processing and finished messages. -/
def add3HandlerReplies (fb fs : Bool) (addOk : String → Bool) (text : String) : List Reply :=
  match cmdArgScan "/add3 ".data text.data with
  | none => []
  | some cand =>
    if !fb then [Reply.add3Initializing]
    else if !fs then [Reply.add3NoFirestore]
    else
      let input := jsTrim (String.mk cand)
      let usernames := (wordsAux [] input.data).map String.mk
      if usernames.length = 0 then [Reply.add3Usage]
      else Reply.add3Processing usernames.length ::
        ((usernames.map (add3UserReply addOk)).flatten ++ [Reply.add3Finished])

/-- All replies to the sender produced for one inbound text:
`processUpdate` first emits `message` (running the greetings listener
and then the session listener) and then runs the `onText` regex
callbacks in registration order (`/start`, `/check`, `/report`,
`/cancel`, `/add3`); every matching handler replies — the source sets
no `onlyFirstMatch` option. -/
def allReplies (cfg : BotConfig) (env : ProbeEnv) (fb fs : Bool) (addOk : String → Bool)
    (st : Store) (uid : Nat) (text : String) : List Reply :=
  greetingsHandlerReplies text ++ sessionHandlerReplies cfg st uid text ++
    startHandlerReplies text ++ checkHandlerReplies env text ++
    reportHandlerReplies cfg text ++ cancelHandlerReplies st uid text ++
    add3HandlerReplies fb fs addOk text

/-- A concrete probe environment: a plain 200 response, no fault. -/
def env0 : ProbeEnv := { status := 200, body := "", fault := none }

/-- A concrete Firestore outcome: every add succeeds. -/
def addOk0 : String → Bool := fun _ => true

/-- A concrete configuration: a default report channel is set and
delivery succeeds. -/
def cfg0 : BotConfig := { defaultChannel := some "channel", sendOk := true }

/-- A concrete store: user 7 has a session at the AwaitingLink step. -/
def storeAwaitingLink : Store :=
  setSession 7 { step := "awaitingReportLink" } emptyStore

/-- Claim C3 counterexample: the input sequences are concrete valid
inputs from one user. After `/report` then `@foo` the stored session
is at `awaitingReportReason`; a further `/report` moves the stored
session back to `awaitingReportLink` (the bare report command calls
`startSession`, which overwrites unconditionally). Likewise, after
`/cancel` removed the session, a further `/report` makes a session for
the owner exist again. -/
theorem sessionStepRegresses :
    getSession 7 (runInputs cfg0 7 emptyStore ["/report", "@foo"]) =
      some { step := "awaitingReportReason", link := some "https://t.me/foo" } ∧
    getSession 7 (runInputs cfg0 7 emptyStore ["/report", "@foo", "/report"]) =
      some { step := "awaitingReportLink" } ∧
    getSession 7 (runInputs cfg0 7 emptyStore ["/report", "/cancel"]) = none ∧
    getSession 7 (runInputs cfg0 7 emptyStore ["/report", "/cancel", "/report"]) =
      some { step := "awaitingReportLink" } :=
  ⟨by decide, by decide, by decide, by decide⟩

theorem sessionStoreAbsent (cfg : BotConfig) (st : Store) (uid : Nat) (text : String)
    (h : getSession uid st = none) :
    sessionHandlerStore cfg st uid text = st := by
  unfold sessionHandlerStore
  split
  · rfl
  · rw [show getSession uid st = none from h]

theorem sessionStoreReason (cfg : BotConfig) (st : Store) (uid : Nat) (text : String)
    (s : Session) (h : getSession uid st = some s)
    (hstep : s.step = "awaitingReportReason") :
    sessionHandlerStore cfg st uid text = st ∨
    getSession uid (sessionHandlerStore cfg st uid text) = none := by
  unfold sessionHandlerStore
  split
  · exact Or.inl rfl
  · simp only [h, hstep]
    rw [if_neg (by decide : ¬ ("awaitingReportReason" = "awaitingReportLink"))]
    simp only [if_true]
    by_cases ht : jsTrim text = ""
    · rw [if_pos ht]
      exact Or.inl rfl
    · rw [if_neg ht]
      refine Or.inr ?_
      unfold getSession endSession
      simp

theorem reportStoreSkip (st : Store) (uid : Nat) (text : String)
    (hr : jsIncludes text "/report" = false) :
    reportHandlerStore st uid text = st := by
  unfold reportHandlerStore
  rw [hr]
  rfl

theorem cancelStoreEffect (st : Store) (uid : Nat) (text : String) :
    cancelHandlerStore st uid text = st ∨
    getSession uid (cancelHandlerStore st uid text) = none := by
  unfold cancelHandlerStore
  split
  · cases hg : getSession uid st with
    | none => exact Or.inl rfl
    | some s =>
      refine Or.inr ?_
      show getSession uid (endSession uid st) = none
      unfold getSession endSession
      simp
  · exact Or.inl rfl

theorem cancelStoreAbsent (st : Store) (uid : Nat) (text : String)
    (h : getSession uid st = none) :
    cancelHandlerStore st uid text = st := by
  unfold cancelHandlerStore
  split
  · rw [show getSession uid st = none from h]
  · rfl

theorem processStepNoReport (cfg : BotConfig) (st : Store) (uid : Nat) (text : String)
    (hr : jsIncludes text "/report" = false) :
    (getSession uid st = none → getSession uid (processStore cfg st uid text) = none) ∧
    (∀ s, getSession uid st = some s → s.step = "awaitingReportReason" →
      getSession uid (processStore cfg st uid text) = none ∨
      getSession uid (processStore cfg st uid text) = some s) := by
  unfold processStore
  rw [reportStoreSkip _ _ _ hr]
  constructor
  · intro habs
    rw [sessionStoreAbsent cfg st uid text habs]
    rw [cancelStoreAbsent st uid text habs]
    exact habs
  · intro s hsome hstep
    rcases sessionStoreReason cfg st uid text s hsome hstep with h1 | h1
    · rw [h1]
      rcases cancelStoreEffect st uid text with h2 | h2
      · rw [h2]; exact Or.inr hsome
      · exact Or.inl h2
    · rw [cancelStoreAbsent _ uid text h1]
      exact Or.inl h1

/-- Claim C3 amended: over every sequence of inputs that does not
contain the report-initiation command, the stored session for a user
never moves from `awaitingReportReason` back to `awaitingReportLink`
(it is either unchanged or removed), and a user with no session never
acquires one — ended sessions are not revived. (A bare `/report`,
excluded here, replaces the session with a fresh `awaitingReportLink`
one at any time, which is what the counterexample exhibits.) -/
theorem sessionMonotoneNoReport (cfg : BotConfig) (uid : Nat) :
    ∀ inputs : List String, (∀ t ∈ inputs, jsIncludes t "/report" = false) →
    ∀ st : Store,
    (getSession uid st = none → getSession uid (runInputs cfg uid st inputs) = none) ∧
    (∀ s, getSession uid st = some s → s.step = "awaitingReportReason" →
      getSession uid (runInputs cfg uid st inputs) = none ∨
      getSession uid (runInputs cfg uid st inputs) = some s) := by
  intro inputs
  induction inputs with
  | nil =>
    intro _ st
    exact ⟨fun h1 => h1, fun s h1 _ => Or.inr h1⟩
  | cons t ts ih =>
    intro h st
    have ht : jsIncludes t "/report" = false := h t (List.mem_cons_self t ts)
    have hts : ∀ u ∈ ts, jsIncludes u "/report" = false :=
      fun u hu => h u (List.mem_cons_of_mem t hu)
    have hrun : runInputs cfg uid st (t :: ts) =
        runInputs cfg uid (processStore cfg st uid t) ts := rfl
    rw [hrun]
    obtain ⟨habs, hsome⟩ := processStepNoReport cfg st uid t ht
    constructor
    · intro h1
      exact (ih hts (processStore cfg st uid t)).1 (habs h1)
    · intro s h1 h2
      rcases hsome s h1 h2 with h3 | h3
      · exact Or.inl ((ih hts (processStore cfg st uid t)).1 h3)
      · exact (ih hts (processStore cfg st uid t)).2 s h3 h2

/-- Witness for the amended C3: a user with no session still has none
after a free-text message followed by `/cancel`. -/
theorem sessionMonotoneNoReportWitness :
    getSession 9 (runInputs cfg0 9 emptyStore ["hello", "/cancel"]) = none :=
  (sessionMonotoneNoReport cfg0 9 ["hello", "/cancel"] (by decide) emptyStore).1 rfl

/-- Claim C7 counterexample: the greeting `hi` sent while a session is
at the AwaitingLink step is answered by both registered message
listeners — the greetings listener replies hello and the session
listener accepts `hi` as a bare username — so one handled inbound
message produces two replies, not one (no command handler matches
`hi`). -/
theorem doubleReplyOnGreeting :
    allReplies cfg0 env0 true true addOk0 storeAwaitingLink 7 "hi" =
      [Reply.greeting, Reply.gotIt "https://t.me/hi"] ∧
    (allReplies cfg0 env0 true true addOk0 storeAwaitingLink 7 "hi").length ≠ 1 :=
  ⟨by decide, by decide⟩

theorem strEmptyOfDataNil (s : String) (h : s.data = []) : s = "" := by
  cases s with
  | mk d =>
    cases h
    rfl

theorem jsToLowerNeEmpty (text : String) (hne : text ≠ "") : ¬ (jsToLower text = "") := by
  intro h
  apply hne
  unfold jsToLower at h
  have h1 : text.data.map Char.toLower = [] := congrArg String.data h
  have hd : text.data = [] := by
    cases he : text.data with
    | nil => rfl
    | cons c t => rw [he] at h1; simp at h1
  exact strEmptyOfDataNil text hd

theorem prefixOfAppendLeft (q : List Char) :
    ∀ (p l : List Char), (p ++ q).isPrefixOf l = true → p.isPrefixOf l = true := by
  intro p
  induction p with
  | nil => intro l _; simp
  | cons a as ih =>
    intro l h
    cases l with
    | nil => rw [List.cons_append] at h; simp [List.isPrefixOf] at h
    | cons b bs =>
      rw [List.cons_append, List.isPrefixOf_cons₂, Bool.and_eq_true] at h
      rw [List.isPrefixOf_cons₂, Bool.and_eq_true]
      exact ⟨h.1, ih bs h.2⟩

theorem containsOfContainsAppend (p q : List Char) :
    ∀ l, containsSub (p ++ q) l = true → containsSub p l = true := by
  intro l
  induction l with
  | nil =>
    intro h
    simp only [containsSub] at h ⊢
    cases p with
    | nil => rfl
    | cons a as => rw [List.cons_append] at h; simp [List.isPrefixOf] at h
  | cons c t ih =>
    intro h
    simp only [containsSub, Bool.or_eq_true] at h ⊢
    cases h with
    | inl h1 => exact Or.inl (prefixOfAppendLeft q p (c :: t) h1)
    | inr h2 => exact Or.inr (ih h2)

theorem scanNoneOfNotContains (pat : List Char) :
    ∀ l, containsSub pat l = false → cmdArgScan pat l = none := by
  intro l
  induction l with
  | nil => intro _; rfl
  | cons c t ih =>
    intro h
    simp only [containsSub] at h
    have hp : pat.isPrefixOf (c :: t) = false := by
      cases hpp : pat.isPrefixOf (c :: t) with
      | false => rfl
      | true => rw [hpp] at h; simp at h
    have ht : containsSub pat t = false := by
      cases htt : containsSub pat t with
      | false => rfl
      | true => rw [htt] at h; simp at h
    unfold cmdArgScan
    rw [if_neg (by simp [hp])]
    exact ih ht

theorem tokSpaceNotContained (tok sp text : String)
    (hds : tok.data ++ sp.data = (tok ++ sp).data)
    (h : jsIncludes text tok = false) :
    containsSub (tok ++ sp).data text.data = false := by
  cases hcc : containsSub (tok ++ sp).data text.data with
  | false => rfl
  | true =>
    exfalso
    rw [← hds] at hcc
    have h6 : containsSub tok.data text.data = true :=
      containsOfContainsAppend tok.data sp.data text.data hcc
    unfold jsIncludes at h
    rw [h6] at h
    simp at h

theorem startRepliesNone (text : String) (h : jsIncludes text "/start" = false) :
    startHandlerReplies text = [] := by
  unfold startHandlerReplies
  rw [if_neg (by simp [h])]

theorem checkRepliesNone (env : ProbeEnv) (text : String)
    (h : jsIncludes text "/check" = false) :
    checkHandlerReplies env text = [] := by
  unfold checkHandlerReplies
  rw [scanNoneOfNotContains "/check ".data text.data
    (tokSpaceNotContained "/check" " " text rfl h)]

theorem reportRepliesNone (cfg : BotConfig) (text : String)
    (h : jsIncludes text "/report" = false) :
    reportHandlerReplies cfg text = [] := by
  unfold reportHandlerReplies
  rw [if_neg (by simp [h])]

theorem cancelRepliesNone (st : Store) (uid : Nat) (text : String)
    (h : jsIncludes text "/cancel" = false) :
    cancelHandlerReplies st uid text = [] := by
  unfold cancelHandlerReplies
  rw [if_neg (by simp [h])]

theorem add3RepliesNone (fb fs : Bool) (addOk : String → Bool) (text : String)
    (h : jsIncludes text "/add3" = false) :
    add3HandlerReplies fb fs addOk text = [] := by
  unfold add3HandlerReplies
  rw [scanNoneOfNotContains "/add3 ".data text.data
    (tokSpaceNotContained "/add3" " " text rfl h)]

theorem sessionRepliesLenSome (cfg : BotConfig) (st : Store) (uid : Nat) (text : String)
    (s : Session) (hc : (decide (text = "") || jsStartsWith text "/") = false)
    (h : getSession uid st = some s) :
    (sessionHandlerReplies cfg st uid text).length = 1 := by
  obtain ⟨dc, sk⟩ := cfg
  unfold sessionHandlerReplies
  rw [if_neg (by rw [hc]; simp)]
  simp only [h]
  by_cases h1 : s.step = "awaitingReportLink"
  · rw [if_pos h1]
    cases normalizeReportLink text <;> rfl
  · rw [if_neg h1]
    by_cases h2 : s.step = "awaitingReportReason"
    · rw [if_pos h2]
      by_cases h3 : jsTrim text = ""
      · rw [if_pos h3]; rfl
      · rw [if_neg h3]
        cases dc with
        | none => rfl
        | some ch => cases sk <;> rfl
    · rw [if_neg h2]; rfl

theorem sessionRepliesNone (cfg : BotConfig) (st : Store) (uid : Nat) (text : String)
    (hc : (decide (text = "") || jsStartsWith text "/") = false)
    (h : getSession uid st = none) :
    sessionHandlerReplies cfg st uid text =
      (if greetingWords.contains (jsToLower text) then [] else [Reply.fallbackAck]) := by
  unfold sessionHandlerReplies
  rw [if_neg (by rw [hc]; simp)]
  simp only [h]

/-- Claim C7 amended: for every free-text inbound message (nonempty,
not starting with `/`) that contains none of the command tokens
`/start`, `/check`, `/report`, `/cancel` and `/add3` — so that no
unanchored `onText` pattern can fire — the dispatcher produces
exactly one reply, except when the text is a greeting word and the
sender has an active session, in which case both message listeners
answer and two replies are produced. -/
theorem replyCountFormula (cfg : BotConfig) (env : ProbeEnv) (fb fs : Bool)
    (addOk : String → Bool) (st : Store) (uid : Nat) (text : String)
    (hne : text ≠ "") (hsw : jsStartsWith text "/" = false)
    (h1 : jsIncludes text "/start" = false) (h2 : jsIncludes text "/check" = false)
    (h3 : jsIncludes text "/report" = false) (h4 : jsIncludes text "/cancel" = false)
    (h5 : jsIncludes text "/add3" = false) :
    (allReplies cfg env fb fs addOk st uid text).length =
      (if greetingWords.contains (jsToLower text) && (getSession uid st).isSome
       then 2 else 1) := by
  have hc : (decide (text = "") || jsStartsWith text "/") = false := by
    rw [hsw, Bool.or_false, decide_eq_false hne]
  have hglen : (greetingsHandlerReplies text).length =
      (if greetingWords.contains (jsToLower text) then 1 else 0) := by
    unfold greetingsHandlerReplies
    rw [if_neg (jsToLowerNeEmpty text hne)]
    by_cases hg : greetingWords.contains (jsToLower text) = true
    · rw [if_pos hg, if_pos hg]; rfl
    · rw [if_neg hg, if_neg hg]; rfl
  unfold allReplies
  rw [startRepliesNone text h1, checkRepliesNone env text h2,
      reportRepliesNone cfg text h3, cancelRepliesNone st uid text h4,
      add3RepliesNone fb fs addOk text h5]
  simp only [List.append_nil]
  rw [List.length_append, hglen]
  cases hsess : getSession uid st with
  | some s =>
    rw [sessionRepliesLenSome cfg st uid text s hc hsess]
    by_cases hg : greetingWords.contains (jsToLower text) = true
    · have hcond : (greetingWords.contains (jsToLower text) && (some s).isSome) = true := by
        rw [hg]; rfl
      rw [hcond, if_pos hg]
      simp
    · have hgf : greetingWords.contains (jsToLower text) = false := by
        revert hg; cases greetingWords.contains (jsToLower text) <;> simp
      have hcond : (greetingWords.contains (jsToLower text) && (some s).isSome) = false := by
        rw [hgf]; rfl
      rw [hcond, if_neg hg]
      simp
  | none =>
    rw [sessionRepliesNone cfg st uid text hc hsess]
    have hcond : (greetingWords.contains (jsToLower text) &&
        (none : Option Session).isSome) = false := by
      cases greetingWords.contains (jsToLower text) <;> rfl
    rw [hcond]
    by_cases hg : greetingWords.contains (jsToLower text) = true
    · rw [if_pos hg, if_pos hg]
      simp
    · rw [if_neg hg, if_neg hg]
      simp

/-- Witness for the amended C7: the canonical session continuation
`https://t.me/foo` sent during an AwaitingLink session receives
exactly one reply. -/
theorem replyCountFormulaWitness :
    (allReplies cfg0 env0 true true addOk0 storeAwaitingLink 7 "https://t.me/foo").length =
      (if greetingWords.contains (jsToLower "https://t.me/foo") &&
          (getSession 7 storeAwaitingLink).isSome
       then 2 else 1) :=
  replyCountFormula cfg0 env0 true true addOk0 storeAwaitingLink 7 "https://t.me/foo"
    (by decide) (by decide) (by decide) (by decide) (by decide) (by decide) (by decide)

/-- Claim C8: while a session is at the AwaitingLink step, a free-text
message that matches none of the three accepted identifier shapes
makes the session handler re-prompt and leaves the store completely
unchanged — no field is written and the step stays AwaitingLink. -/
theorem invalidLinkLeavesSessionUnchanged (cfg : BotConfig) (st : Store) (uid : Nat)
    (text : String) (s : Session)
    (hsess : getSession uid st = some s) (hstep : s.step = "awaitingReportLink")
    (hne : text ≠ "") (hsw : jsStartsWith text "/" = false)
    (hinv : normalizeReportLink text = none) :
    sessionHandlerStore cfg st uid text = st ∧
    sessionHandlerReplies cfg st uid text = [Reply.invalidLinkPrompt] ∧
    getSession uid (sessionHandlerStore cfg st uid text) = some s := by
  have hc : (decide (text = "") || jsStartsWith text "/") = false := by
    rw [hsw, Bool.or_false, decide_eq_false hne]
  have h1 : sessionHandlerStore cfg st uid text = st := by
    unfold sessionHandlerStore
    rw [if_neg (by rw [hc]; simp)]
    simp only [hsess, hstep, if_true]
    rw [hinv]
  refine ⟨h1, ?_, by rw [h1]; exact hsess⟩
  unfold sessionHandlerReplies
  rw [if_neg (by rw [hc]; simp)]
  simp only [hsess, hstep, if_true]
  rw [hinv]

/-- Witness for C8: the text `two words` (contains a space, so it fits
none of the three shapes) leaves the AwaitingLink session unchanged. -/
theorem invalidLinkLeavesSessionUnchangedWitness :
    sessionHandlerStore cfg0 storeAwaitingLink 7 "two words" = storeAwaitingLink ∧
    sessionHandlerReplies cfg0 storeAwaitingLink 7 "two words" = [Reply.invalidLinkPrompt] ∧
    getSession 7 (sessionHandlerStore cfg0 storeAwaitingLink 7 "two words") =
      some { step := "awaitingReportLink" } :=
  invalidLinkLeavesSessionUnchanged cfg0 storeAwaitingLink 7 "two words"
    { step := "awaitingReportLink" } (by decide) rfl (by decide) (by decide) (by decide)
